import Mathlib

/-!
Verification of the SchoolPositioning frontend (src/frontend/src/App.tsx):
the form-to-profile assembly (UserForm.handleSubmit), the orchestrator state
machine (App), the report renderer (AnalysisReport) and the PDF export
pagination (downloadPDF), embedded as executable Lean definitions.
-/

namespace SchoolPositioning

/-! ## Data model (services/api.ts interfaces) -/

structure ResearchExperience where
  name : String
  role : Option String := none
  description : String
deriving DecidableEq

structure InternshipExperience where
  company : String
  position : String
  description : String
deriving DecidableEq

structure OtherExperience where
  name : String
  description : String
deriving DecidableEq

/-- The UserBackground interface of services/api.ts: required applicant
fields plus optional score fields and optional experience arrays.  Optional
TypeScript fields are embedded as Option, with none for an absent key. -/
structure UserBackground where
  undergraduate_university : String
  undergraduate_major : String
  gpa : ℚ
  gpa_scale : String
  graduation_year : ℤ
  language_test_type : Option String := none
  language_total_score : Option ℚ := none
  language_reading : Option ℚ := none
  language_listening : Option ℚ := none
  language_speaking : Option ℚ := none
  language_writing : Option ℚ := none
  gre_total : Option ℚ := none
  gre_verbal : Option ℚ := none
  gre_quantitative : Option ℚ := none
  gre_writing : Option ℚ := none
  gmat_total : Option ℚ := none
  target_countries : List String
  target_majors : List String
  target_degree_type : String
  research_experiences : Option (List ResearchExperience) := none
  internship_experiences : Option (List InternshipExperience) := none
  other_experiences : Option (List OtherExperience) := none
deriving DecidableEq

structure CompetitivenessAnalysis where
  strengths : String
  weaknesses : String
  summary : String
deriving DecidableEq

structure SchoolRecommendation where
  university : String
  program : String
  reason : String
deriving DecidableEq

structure SchoolRecommendations where
  reach : List SchoolRecommendation
  target : List SchoolRecommendation
  safety : List SchoolRecommendation
  case_insights : String
deriving DecidableEq

structure CaseComparison where
  gpa : String
  university : String
  experience : String
deriving DecidableEq

structure CaseAnalysis where
  case_id : ℤ
  admitted_university : String
  admitted_program : String
  gpa : String
  language_score : String
  language_test_type : Option String := none
  key_experiences : Option String := none
  undergraduate_info : String
  comparison : CaseComparison
  success_factors : String
  takeaways : String
deriving DecidableEq

structure ActionPlan where
  timeframe : String
  action : String
  goal : String
deriving DecidableEq

structure BackgroundImprovement where
  action_plan : List ActionPlan
  strategy_summary : String
deriving DecidableEq

/-- The AnalysisReport interface of services/api.ts; background_improvement
is typed BackgroundImprovement | null. -/
structure AnalysisReport where
  competitiveness : CompetitivenessAnalysis
  school_recommendations : SchoolRecommendations
  similar_cases : List CaseAnalysis
  background_improvement : Option BackgroundImprovement := none
deriving DecidableEq

/-! ## Intake form (components/UserForm.tsx) -/

/-- The antd form value object received by handleSubmit: required fields are
present after validation, score fields and experience lists may be absent. -/
structure FormValues where
  undergraduate_university : String
  undergraduate_major : String
  gpa : ℚ
  gpa_scale : String
  graduation_year : ℤ
  target_countries : List String
  target_majors : List String
  target_degree_type : String
  language_test_type : Option String := none
  language_total_score : Option ℚ := none
  language_reading : Option ℚ := none
  language_listening : Option ℚ := none
  language_speaking : Option ℚ := none
  language_writing : Option ℚ := none
  gre_total : Option ℚ := none
  gre_verbal : Option ℚ := none
  gre_quantitative : Option ℚ := none
  gre_writing : Option ℚ := none
  gmat_total : Option ℚ := none
  research_experiences : Option (List ResearchExperience) := none
  internship_experiences : Option (List InternshipExperience) := none
  other_experiences : Option (List OtherExperience) := none
deriving DecidableEq

/-- JavaScript truthiness of an optional string value: an absent value and
the empty string are falsy. -/
def strTruthy : Option String → Bool
  | none => false
  | some s => !s.isEmpty

/-- JavaScript truthiness of an optional numeric value: an absent value and
0 are falsy. -/
def numTruthy : Option ℚ → Bool
  | none => false
  | some q => q != 0

/-- UserForm.handleSubmit: builds the UserBackground formData from the form
values; the three experience arrays default to [] via the JS pattern
values.xs || []; each optional score block is copied only when its toggle
state (hasLanguageScore / hasGRE / hasGMAT) is set and its trigger fields
(language_test_type and language_total_score / gre_total / gmat_total) are
truthy. -/
def handleSubmit (hasLanguageScore hasGRE hasGMAT : Bool)
    (values : FormValues) : UserBackground :=
  let formData : UserBackground :=
    { undergraduate_university := values.undergraduate_university,
      undergraduate_major := values.undergraduate_major,
      gpa := values.gpa,
      gpa_scale := values.gpa_scale,
      graduation_year := values.graduation_year,
      target_countries := values.target_countries,
      target_majors := values.target_majors,
      target_degree_type := values.target_degree_type,
      research_experiences := some (values.research_experiences.getD []),
      internship_experiences := some (values.internship_experiences.getD []),
      other_experiences := some (values.other_experiences.getD []) }
  let formData :=
    if hasLanguageScore && strTruthy values.language_test_type
        && numTruthy values.language_total_score then
      { formData with
          language_test_type := values.language_test_type,
          language_total_score := values.language_total_score,
          language_reading := values.language_reading,
          language_listening := values.language_listening,
          language_speaking := values.language_speaking,
          language_writing := values.language_writing }
    else formData
  let formData :=
    if hasGRE && numTruthy values.gre_total then
      { formData with
          gre_total := values.gre_total,
          gre_verbal := values.gre_verbal,
          gre_quantitative := values.gre_quantitative,
          gre_writing := values.gre_writing }
    else formData
  if hasGMAT && numTruthy values.gmat_total then
    { formData with gmat_total := values.gmat_total }
  else formData

/-- The UserForm JSX registers GRE inputs only for gre_total and
gre_writing; no Form.Item is named gre_verbal or gre_quantitative anywhere
in the component, so the form value object produced by the UI never carries
those two fields. -/
def uiGreFieldsAbsent (values : FormValues) : Prop :=
  values.gre_verbal = none ∧ values.gre_quantitative = none

/-! ## Orchestrator (App.tsx) -/

inductive Step where
  | form
  | report
deriving DecidableEq

/-- App component state: currentStep, analysisReport and loading hooks. -/
structure AppState where
  currentStep : Step
  analysisReport : Option AnalysisReport
  loading : Bool
deriving DecidableEq

/-- Initial hook values: useState('form'), useState(null), useState(false). -/
def initialAppState : AppState :=
  { currentStep := Step.form, analysisReport := none, loading := false }

/-- The error object reaching the catch block of handleFormSubmit:
error.response?.data?.detail and error.message, each possibly absent. -/
structure ApiError where
  responseDetail : Option String := none
  message : Option String := none
deriving DecidableEq

/-- The static fallback text preset in handleFormSubmit's catch block. -/
def fallbackErrorMessage : String := "分析失败，请稍后重试"

/-- The catch block of handleFormSubmit: errorMessage starts as the static
fallback, is replaced by error.response.data.detail when truthy, else by
error.message when truthy. -/
def errorMessageFor (error : ApiError) : String :=
  if strTruthy error.responseDetail then error.responseDetail.getD fallbackErrorMessage
  else if strTruthy error.message then error.message.getD fallbackErrorMessage
  else fallbackErrorMessage

/-- Success path of handleFormSubmit: setAnalysisReport(report),
setCurrentStep('report'), setLoading(false) in finally. -/
def handleFormSubmitSuccess (s : AppState) (report : AnalysisReport) : AppState :=
  { s with analysisReport := some report, currentStep := Step.report, loading := false }

/-- Failure path of handleFormSubmit: no step or report update, only
message.error(errorMessage) and setLoading(false) in finally; returns the
new state together with the surfaced message. -/
def handleFormSubmitFailure (s : AppState) (error : ApiError) : AppState × String :=
  ({ s with loading := false }, errorMessageFor error)

/-- handleBackToForm: setCurrentStep('form') and setAnalysisReport(null). -/
def handleBackToForm (s : AppState) : AppState :=
  { s with currentStep := Step.form, analysisReport := none }

/-! ## Report renderer (components/AnalysisReport.tsx) -/

/-- Outcome of renderBackgroundImprovement: either the Alert notice or the
Timeline of action-plan items followed by the strategy-summary card. -/
inductive BackgroundImprovementView where
  | unavailableNotice (text : String)
  | plan (action_plan : List ActionPlan) (strategy_summary : String)
deriving DecidableEq

/-- renderBackgroundImprovement: when report.background_improvement is null
it returns the info Alert, otherwise the action-plan timeline plus the
strategy summary. -/
def renderBackgroundImprovement (report : AnalysisReport) : BackgroundImprovementView :=
  match report.background_improvement with
  | none => BackgroundImprovementView.unavailableNotice "背景提升建议暂时无法生成"
  | some bi => BackgroundImprovementView.plan bi.action_plan bi.strategy_summary

structure RadarDataset where
  label : String
  data : List ℚ
deriving DecidableEq

structure RadarChartData where
  labels : List String
  datasets : List RadarDataset
deriving DecidableEq

/-- radarData as built inside the AnalysisReport component: the report prop
is in scope but unused; labels and dataset values are literal constants. -/
def radarData (_report : AnalysisReport) : RadarChartData :=
  { labels := ["学术能力", "语言能力", "科研背景", "实习背景", "院校背景"],
    datasets := [{ label := "综合竞争力",
                   data := [75, 60, 45, 50, 80] }] }

/-! ## Document exporter (downloadPDF in AnalysisReport.tsx) -/

/-- const imgWidth = 210 (mm, A4 width). -/
def pdfImgWidth : ℚ := 210

/-- const pageHeight = 295 (mm). -/
def pdfPageHeight : ℚ := 295

/-- The while loop of downloadPDF after the first addImage: while
heightLeft >= 0 set position = heightLeft - imgHeight, addPage, addImage at
that position and decrement heightLeft by pageHeight.  Returns the list of
vertical positions of the addImage calls made by the loop. -/
def pdfLoop (imgHeight : ℚ) (heightLeft : ℚ) : List ℚ :=
  if h : 0 ≤ heightLeft then
    (heightLeft - imgHeight) :: pdfLoop imgHeight (heightLeft - pdfPageHeight)
  else
    []
termination_by Nat.ceil ((heightLeft + pdfPageHeight) / pdfPageHeight)
decreasing_by
  have hP : (0 : ℚ) < pdfPageHeight := by norm_num [pdfPageHeight]
  have h1 : heightLeft - pdfPageHeight + pdfPageHeight = heightLeft := by ring
  have h2 : (heightLeft + pdfPageHeight) / pdfPageHeight
      = heightLeft / pdfPageHeight + 1 := by
    rw [add_div, div_self (ne_of_gt hP)]
  have h3 : (0 : ℚ) ≤ heightLeft / pdfPageHeight := div_nonneg h (le_of_lt hP)
  rw [h1, h2, Nat.ceil_add_one h3]
  exact Nat.lt_succ_self _

/-- Vertical positions of every addImage call of downloadPDF for a scaled
image of height imgHeight: position 0 on page 1, then one further page per
loop iteration.  The page count of the produced document is the length of
this list. -/
def pdfPagePositions (imgHeight : ℚ) : List ℚ :=
  0 :: pdfLoop imgHeight (imgHeight - pdfPageHeight)

/-- A page shows some image row iff the image placed at the page's position
extends strictly below the page top, i.e. position + imgHeight > 0. -/
def pageShowsContent (imgHeight position : ℚ) : Prop :=
  0 < position + imgHeight

/-- The html2canvas result: a bitmap with its pixel dimensions. -/
structure Canvas where
  width : ℚ
  height : ℚ
deriving DecidableEq

structure CaptureError where
  reason : String
deriving DecidableEq

inductive ExportOutcome where
  | saved (filename : String) (pagePositions : List ℚ)
  | failed
deriving DecidableEq

/-- downloadPDF: the try block awaits html2canvas (its result or thrown
error is the captureResult argument), scales the image to the fixed page
width, paginates and saves; the catch block only logs — no save happens and
no React state setter is called on either path, so the App state is
returned unchanged. -/
def downloadPDF (captureResult : Except CaptureError Canvas)
    (s : AppState) : AppState × ExportOutcome :=
  match captureResult with
  | Except.error _ => (s, ExportOutcome.failed)
  | Except.ok canvas =>
      let imgHeight := canvas.height * pdfImgWidth / canvas.width
      (s, ExportOutcome.saved "留学分析报告.pdf" (pdfPagePositions imgHeight))

/-! ## Sample values used by witnesses -/

def sampleFormValues : FormValues :=
  { undergraduate_university := "北京大学",
    undergraduate_major := "计算机科学与技术",
    gpa := 88,
    gpa_scale := "100",
    graduation_year := 2025,
    target_countries := ["美国"],
    target_majors := ["计算机科学"],
    target_degree_type := "Master",
    language_test_type := some "TOEFL",
    language_total_score := some 100,
    language_reading := some 25,
    language_listening := some 25,
    language_speaking := some 25,
    language_writing := some 25 }

def greOnlyValues : FormValues :=
  { undergraduate_university := "清华大学",
    undergraduate_major := "软件工程",
    gpa := 90,
    gpa_scale := "100",
    graduation_year := 2026,
    target_countries := ["英国"],
    target_majors := ["数据科学"],
    target_degree_type := "PhD",
    gre_total := some 320,
    gre_writing := some 4 }

def sampleReport : AnalysisReport :=
  { competitiveness :=
      { strengths := "较强的量化背景",
        weaknesses := "科研经历不足",
        summary := "整体竞争力中等偏上" },
    school_recommendations :=
      { reach := [], target := [], safety := [], case_insights := "暂无" },
    similar_cases := [],
    background_improvement := none }

/-! ## Projection lemmas for handleSubmit -/

set_option maxRecDepth 4000

def langBlockIncluded (hasLanguageScore : Bool) (values : FormValues) : Bool :=
  hasLanguageScore && strTruthy values.language_test_type
    && numTruthy values.language_total_score

def greBlockIncluded (hasGRE : Bool) (values : FormValues) : Bool :=
  hasGRE && numTruthy values.gre_total

def gmatBlockIncluded (hasGMAT : Bool) (values : FormValues) : Bool :=
  hasGMAT && numTruthy values.gmat_total

/-- Form values with all three experience lists left untouched (absent). -/
def clearExperiences (v : FormValues) : FormValues :=
  { v with research_experiences := none, internship_experiences := none,
           other_experiences := none }

theorem handleSubmit_language_test_type (hL hG hM : Bool) (v : FormValues) :
    (handleSubmit hL hG hM v).language_test_type
      = if langBlockIncluded hL v then v.language_test_type else none := by
  unfold handleSubmit langBlockIncluded
  split <;> split <;> split <;> simp_all

theorem handleSubmit_language_total_score (hL hG hM : Bool) (v : FormValues) :
    (handleSubmit hL hG hM v).language_total_score
      = if langBlockIncluded hL v then v.language_total_score else none := by
  unfold handleSubmit langBlockIncluded
  split <;> split <;> split <;> simp_all

theorem handleSubmit_language_reading (hL hG hM : Bool) (v : FormValues) :
    (handleSubmit hL hG hM v).language_reading
      = if langBlockIncluded hL v then v.language_reading else none := by
  unfold handleSubmit langBlockIncluded
  split <;> split <;> split <;> simp_all

theorem handleSubmit_language_listening (hL hG hM : Bool) (v : FormValues) :
    (handleSubmit hL hG hM v).language_listening
      = if langBlockIncluded hL v then v.language_listening else none := by
  unfold handleSubmit langBlockIncluded
  split <;> split <;> split <;> simp_all

theorem handleSubmit_language_speaking (hL hG hM : Bool) (v : FormValues) :
    (handleSubmit hL hG hM v).language_speaking
      = if langBlockIncluded hL v then v.language_speaking else none := by
  unfold handleSubmit langBlockIncluded
  split <;> split <;> split <;> simp_all

theorem handleSubmit_language_writing (hL hG hM : Bool) (v : FormValues) :
    (handleSubmit hL hG hM v).language_writing
      = if langBlockIncluded hL v then v.language_writing else none := by
  unfold handleSubmit langBlockIncluded
  split <;> split <;> split <;> simp_all

theorem handleSubmit_gre_total (hL hG hM : Bool) (v : FormValues) :
    (handleSubmit hL hG hM v).gre_total
      = if greBlockIncluded hG v then v.gre_total else none := by
  unfold handleSubmit greBlockIncluded
  split <;> split <;> split <;> simp_all

theorem handleSubmit_gre_verbal (hL hG hM : Bool) (v : FormValues) :
    (handleSubmit hL hG hM v).gre_verbal
      = if greBlockIncluded hG v then v.gre_verbal else none := by
  unfold handleSubmit greBlockIncluded
  split <;> split <;> split <;> simp_all

theorem handleSubmit_gre_quantitative (hL hG hM : Bool) (v : FormValues) :
    (handleSubmit hL hG hM v).gre_quantitative
      = if greBlockIncluded hG v then v.gre_quantitative else none := by
  unfold handleSubmit greBlockIncluded
  split <;> split <;> split <;> simp_all

theorem handleSubmit_gre_writing (hL hG hM : Bool) (v : FormValues) :
    (handleSubmit hL hG hM v).gre_writing
      = if greBlockIncluded hG v then v.gre_writing else none := by
  unfold handleSubmit greBlockIncluded
  split <;> split <;> split <;> simp_all

theorem handleSubmit_gmat_total (hL hG hM : Bool) (v : FormValues) :
    (handleSubmit hL hG hM v).gmat_total
      = if gmatBlockIncluded hM v then v.gmat_total else none := by
  unfold handleSubmit gmatBlockIncluded
  split <;> split <;> split <;> simp_all

theorem handleSubmit_research_experiences (hL hG hM : Bool) (v : FormValues) :
    (handleSubmit hL hG hM v).research_experiences
      = some (v.research_experiences.getD []) := by
  unfold handleSubmit
  split <;> split <;> split <;> simp_all

theorem handleSubmit_internship_experiences (hL hG hM : Bool) (v : FormValues) :
    (handleSubmit hL hG hM v).internship_experiences
      = some (v.internship_experiences.getD []) := by
  unfold handleSubmit
  split <;> split <;> split <;> simp_all

theorem handleSubmit_other_experiences (hL hG hM : Bool) (v : FormValues) :
    (handleSubmit hL hG hM v).other_experiences
      = some (v.other_experiences.getD []) := by
  unfold handleSubmit
  split <;> split <;> split <;> simp_all

/-! ## Theorems -/

/-- Claim C1: the claim states that for an image of height H = 590 and page
height P = 295 the exporter produces exactly ceil(H/P) = 2 pages with no
trailing blank page.  Evaluating the embedded downloadPDF loop at that
input shows it emits three addImage calls, at positions 0, -295 and -590:
the third page's image ends exactly at the page top (position + imgHeight =
0), so a trailing blank third page is produced, while ceil(590/295) = 2. -/
theorem pdf_pagination_blank_third_page :
    pdfPagePositions 590 = [0, -295, -590]
    ∧ (pdfPagePositions 590).length = 3
    ∧ Nat.ceil ((590 : ℚ) / pdfPageHeight) = 2
    ∧ ¬ pageShowsContent 590 (-590) := by
  have hpos : pdfPagePositions 590 = [0, -295, -590] := by
    unfold pdfPagePositions
    rw [pdfLoop]
    norm_num [pdfPageHeight]
    rw [pdfLoop]
    norm_num [pdfPageHeight]
    rw [pdfLoop]
    norm_num [pdfPageHeight]
  refine ⟨hpos, by rw [hpos]; rfl, ?_, ?_⟩
  · rw [pdfPageHeight, show ((590 : ℚ) / 295) = 2 by norm_num]
    norm_num
  · simp [pageShowsContent]

/-- Claim C2: each optional score block reaches the assembled profile only
when its toggle is on and its trigger fields are truthy.  With a toggle off
the block's fields are none in the output whatever stale values the form
still holds; with a toggle on but an absent (or empty-string) trigger field
the block is omitted as well. -/
theorem optional_blocks_respect_toggles (hL hG hM : Bool) (v : FormValues) :
    ((handleSubmit false hG hM v).language_test_type = none
      ∧ (handleSubmit false hG hM v).language_total_score = none
      ∧ (handleSubmit false hG hM v).language_reading = none
      ∧ (handleSubmit false hG hM v).language_listening = none
      ∧ (handleSubmit false hG hM v).language_speaking = none
      ∧ (handleSubmit false hG hM v).language_writing = none)
    ∧ ((handleSubmit hL false hM v).gre_total = none
      ∧ (handleSubmit hL false hM v).gre_verbal = none
      ∧ (handleSubmit hL false hM v).gre_quantitative = none
      ∧ (handleSubmit hL false hM v).gre_writing = none)
    ∧ (handleSubmit hL hG false v).gmat_total = none
    ∧ (handleSubmit true hG hM
        { v with language_total_score := none }).language_test_type = none
    ∧ (handleSubmit true hG hM
        { v with language_total_score := none }).language_total_score = none
    ∧ (handleSubmit true hG hM
        { v with language_test_type := none }).language_total_score = none
    ∧ (handleSubmit true hG hM
        { v with language_test_type := some "" }).language_total_score = none
    ∧ (handleSubmit hL true hM { v with gre_total := none }).gre_total = none
    ∧ (handleSubmit hL true hM { v with gre_total := none }).gre_writing = none
    ∧ (handleSubmit hL hG true { v with gmat_total := none }).gmat_total = none := by
  simp [handleSubmit_language_test_type, handleSubmit_language_total_score,
    handleSubmit_language_reading, handleSubmit_language_listening,
    handleSubmit_language_speaking, handleSubmit_language_writing,
    handleSubmit_gre_total, handleSubmit_gre_verbal,
    handleSubmit_gre_quantitative, handleSubmit_gre_writing,
    handleSubmit_gmat_total, langBlockIncluded, greBlockIncluded,
    gmatBlockIncluded, strTruthy, numTruthy]
  intro hempty _
  exact absurd hempty (by decide)

/-- Claim C5: in every assembled profile, a present language_total_score
implies a present language_test_type (both are set together by the same
guarded block of handleSubmit). -/
theorem language_score_requires_test_type (hL hG hM : Bool) (v : FormValues)
    (hscore : (handleSubmit hL hG hM v).language_total_score ≠ none) :
    (handleSubmit hL hG hM v).language_test_type ≠ none := by
  rw [handleSubmit_language_total_score] at hscore
  rw [handleSubmit_language_test_type]
  by_cases hc : langBlockIncluded hL v = true
  · rw [if_pos hc]
    unfold langBlockIncluded at hc
    rcases h : v.language_test_type with _ | s
    · rw [h] at hc
      simp [strTruthy] at hc
    · simp
  · rw [if_neg hc] at hscore
    exact absurd rfl hscore

/-- Witness for C5 at a concrete submission with the language block on. -/
theorem language_score_requires_test_type_witness :
    (handleSubmit true false false sampleFormValues).language_test_type ≠ none :=
  language_score_requires_test_type true false false sampleFormValues (by decide)

/-- Claim C6: the claim states that an included GRE block carries the total
and all three sub-scores; but the UserForm renders no input for gre_verbal
or gre_quantitative, so for every form value object the UI can produce
(uiGreFieldsAbsent) the assembled profile's gre_verbal and gre_quantitative
are none even when the GRE block is included. -/
theorem gre_block_lacks_subscores (hL hG hM : Bool) (v : FormValues)
    (hui : uiGreFieldsAbsent v) :
    (handleSubmit hL hG hM v).gre_verbal = none
    ∧ (handleSubmit hL hG hM v).gre_quantitative = none := by
  obtain ⟨h1, h2⟩ := hui
  rw [handleSubmit_gre_verbal, handleSubmit_gre_quantitative, h1, h2]
  exact ⟨ite_self none, ite_self none⟩

/-- Witness for C6: a submission with the GRE toggle on and a truthy
gre_total (the block is included: the total survives) still assembles a
profile with no verbal and no quantitative sub-score. -/
theorem gre_block_lacks_subscores_witness :
    ((handleSubmit false true false greOnlyValues).gre_verbal = none
      ∧ (handleSubmit false true false greOnlyValues).gre_quantitative = none)
    ∧ (handleSubmit false true false greOnlyValues).gre_total = some 320 :=
  ⟨gre_block_lacks_subscores false true false greOnlyValues ⟨rfl, rfl⟩, by decide⟩

/-- Claim C10: the three experience arrays are always present in the
assembled profile; a list the user never filled in submits as some [],
never as an absent field. -/
theorem experience_arrays_always_present (hL hG hM : Bool) (v : FormValues) :
    (handleSubmit hL hG hM v).research_experiences
      = some (v.research_experiences.getD [])
    ∧ (handleSubmit hL hG hM v).internship_experiences
      = some (v.internship_experiences.getD [])
    ∧ (handleSubmit hL hG hM v).other_experiences
      = some (v.other_experiences.getD [])
    ∧ (handleSubmit hL hG hM (clearExperiences v)).research_experiences = some []
    ∧ (handleSubmit hL hG hM (clearExperiences v)).internship_experiences = some []
    ∧ (handleSubmit hL hG hM (clearExperiences v)).other_experiences = some [] := by
  simp [handleSubmit_research_experiences, handleSubmit_internship_experiences,
    handleSubmit_other_experiences, clearExperiences]

/-- Helper: a truthy optional string is a nonempty some. -/
theorem strTruthy_getD_ne_empty (o : Option String) (d : String)
    (ht : strTruthy o = true) : o.getD d ≠ "" := by
  rcases o with _ | s
  · simp [strTruthy] at ht
  · simp only [strTruthy, Bool.not_eq_true'] at ht
    intro hs
    rw [Option.getD_some] at hs
    rw [hs] at ht
    exact absurd ht (by decide)

/-- Helper: the surfaced error message is never the empty string. -/
theorem errorMessageFor_ne_empty (e : ApiError) : errorMessageFor e ≠ "" := by
  unfold errorMessageFor
  by_cases h1 : strTruthy e.responseDetail = true
  · rw [if_pos h1]
    exact strTruthy_getD_ne_empty _ _ h1
  · rw [if_neg h1]
    by_cases h2 : strTruthy e.message = true
    · rw [if_pos h2]
      exact strTruthy_getD_ne_empty _ _ h2
    · rw [if_neg h2]
      exact (by decide : fallbackErrorMessage ≠ "")

/-- Claim C3: the user-visible message of a failed analysis is chosen by
precedence — the remote detail field when truthy, else the error's own
message when truthy, else the static fallback — and is never empty. -/
theorem error_message_precedence (e : ApiError) :
    (∀ d, e.responseDetail = some d → d ≠ "" → errorMessageFor e = d)
    ∧ (∀ m, strTruthy e.responseDetail = false → e.message = some m → m ≠ "" →
        errorMessageFor e = m)
    ∧ (strTruthy e.responseDetail = false → strTruthy e.message = false →
        errorMessageFor e = fallbackErrorMessage)
    ∧ errorMessageFor e ≠ "" := by
  refine ⟨?_, ?_, ?_, errorMessageFor_ne_empty e⟩
  · intro d hd hne
    have ht : strTruthy e.responseDetail = true := by
      rw [hd]
      show (!d.isEmpty) = true
      rw [Bool.not_eq_true']
      exact Bool.eq_false_iff.mpr (fun h => hne ((String.isEmpty_iff d).mp h))
    rw [errorMessageFor, if_pos ht, hd, Option.getD_some]
  · intro m hdf hm hne
    have ht : strTruthy e.message = true := by
      rw [hm]
      show (!m.isEmpty) = true
      rw [Bool.not_eq_true']
      exact Bool.eq_false_iff.mpr (fun h => hne ((String.isEmpty_iff m).mp h))
    rw [errorMessageFor, if_neg (by simp [hdf]), if_pos ht, hm, Option.getD_some]
  · intro hdf hmf
    rw [errorMessageFor, if_neg (by simp [hdf]), if_neg (by simp [hmf])]

/-- Witness for C3: a remote detail field surfaces verbatim; with neither a
detail field nor an error message the static fallback surfaces. -/
theorem error_message_precedence_witness :
    errorMessageFor { responseDetail := some "quota exceeded",
                      message := some "Network Error" } = "quota exceeded"
    ∧ errorMessageFor { responseDetail := none, message := none }
      = fallbackErrorMessage :=
  ⟨(error_message_precedence _).1 "quota exceeded" rfl (by decide),
   (error_message_precedence _).2.2.1 rfl rfl⟩

/-- Claim C4: the orchestrator starts in form with no report; a success
moves to report holding exactly the returned report; a failure keeps the
step (in particular form stays form), stores no report, and surfaces a
nonempty error message; back-navigation returns to form and resets the
stored report to null. -/
theorem orchestrator_state_machine (s : AppState) (r : AnalysisReport)
    (e : ApiError) :
    initialAppState.currentStep = Step.form
    ∧ initialAppState.analysisReport = none
    ∧ (handleFormSubmitSuccess s r).currentStep = Step.report
    ∧ (handleFormSubmitSuccess s r).analysisReport = some r
    ∧ (handleFormSubmitFailure s e).1.currentStep = s.currentStep
    ∧ (s.analysisReport = none → (handleFormSubmitFailure s e).1.analysisReport = none)
    ∧ (handleFormSubmitFailure s e).2 ≠ ""
    ∧ (handleBackToForm s).currentStep = Step.form
    ∧ (handleBackToForm s).analysisReport = none := by
  refine ⟨rfl, rfl, rfl, rfl, rfl, ?_, errorMessageFor_ne_empty e, rfl, rfl⟩
  intro hnone
  exact hnone

/-- Witness for C4 at the initial state, a concrete report and a bare
(detail-less, message-less) error. -/
theorem orchestrator_state_machine_witness :
    (handleFormSubmitFailure initialAppState
        { responseDetail := none, message := none }).1.analysisReport = none
    ∧ (handleFormSubmitSuccess initialAppState sampleReport).analysisReport
      = some sampleReport := by
  have h := orchestrator_state_machine initialAppState sampleReport
    { responseDetail := none, message := none }
  exact ⟨h.2.2.2.2.2.1 rfl, h.2.2.2.1⟩

/-- Claim C7: rendering the background-improvement panel of a report whose
background_improvement is null yields the explicit unavailable notice (a
nonempty Alert text), and with the block present it yields the action-plan
timeline followed by the strategy summary. -/
theorem background_improvement_rendering (r : AnalysisReport) :
    (r.background_improvement = none →
      renderBackgroundImprovement r
        = BackgroundImprovementView.unavailableNotice "背景提升建议暂时无法生成"
        ∧ "背景提升建议暂时无法生成" ≠ "")
    ∧ (∀ bi, r.background_improvement = some bi →
      renderBackgroundImprovement r
        = BackgroundImprovementView.plan bi.action_plan bi.strategy_summary) := by
  constructor
  · intro hnone
    refine ⟨?_, by decide⟩
    rw [renderBackgroundImprovement, hnone]
  · intro bi hsome
    rw [renderBackgroundImprovement, hsome]

/-- Witness for C7 at a concrete report with a null improvement block. -/
theorem background_improvement_rendering_witness :
    renderBackgroundImprovement sampleReport
      = BackgroundImprovementView.unavailableNotice "背景提升建议暂时无法生成" :=
  ((background_improvement_rendering sampleReport).1 rfl).1

/-- Claim C8: when the capture stage throws, downloadPDF ends in the failed
outcome — no file is saved — and the App state (step and stored report) is
returned untouched; a successful capture also leaves the state untouched. -/
theorem export_failure_leaves_state (s : AppState) (err : CaptureError)
    (c : Canvas) :
    downloadPDF (Except.error err) s = (s, ExportOutcome.failed)
    ∧ (downloadPDF (Except.error err) s).2 ≠ ExportOutcome.saved "留学分析报告.pdf"
        (pdfPagePositions (c.height * pdfImgWidth / c.width))
    ∧ (downloadPDF (Except.ok c) s).1 = s := by
  refine ⟨rfl, ?_, rfl⟩
  intro hcontra
  exact ExportOutcome.noConfusion hcontra

/-- Claim C9: the radar-chart data is computed independently of report
content — any two reports yield the identical labels and dataset. -/
theorem radar_data_independent_of_report (r1 r2 : AnalysisReport) :
    radarData r1 = radarData r2
    ∧ (radarData r1).labels
      = ["学术能力", "语言能力", "科研背景", "实习背景", "院校背景"]
    ∧ (radarData r1).datasets
      = [{ label := "综合竞争力", data := [75, 60, 45, 50, 80] }] :=
  ⟨rfl, rfl, rfl⟩

end SchoolPositioning
